import Mathlib

/-!
Formal model of the gripper control layer of the repository
(file pybullet_sim/hardware/robotiq2F85.py): the base Gripper polling
loop (movej, reset, is_object_grasped), the Robotiq2F85 joint-angle
conversion formulas, its gear constraints, and the positional-argument
binding of the WSG50 constructor call into the base constructor.

The physics engine is kept abstract: a GripperImpl record supplies the
engine operations the gripper code invokes (set joint motor targets,
query the joint state as a relative position, step the simulation,
reset the base pose).  Numeric values are modelled as exact rationals
for the polling logic, and as real numbers for the trigonometric
conversion formulas.  A movej call additionally records the trace of
observable effects it performs, in program order, so that frame
conditions can be stated.
-/

namespace PybulletSim

/-- Observable side effects of one movej call, in program order:
reading the current relative position, commanding the joint motor
targets, stepping the simulation, sleeping (with its duration in
seconds), and emitting the timeout debug log message. -/
inductive Event
  | pollEvent
  | setTargetsEvent
  | stepEvent
  | sleepEvent (seconds : ℚ)
  | debugLogEvent
  deriving DecidableEq

/-- Python exceptions the modelled code can raise.  `nameError n` models
a NameError for an unresolved name `n`. -/
inductive PyError
  | nameError (missing : String)
  deriving DecidableEq

/-- Result of a movej call: `success v` is a normal return with value
`v` (`some true` for the early True return, `none` for Python's implicit
None after the loop exhausts), `exn e` is a raised exception. -/
inductive MovejOutcome
  | success (value : Option Bool)
  | exn (e : PyError)
  deriving DecidableEq

/-- The engine-facing operations a concrete gripper supplies: the
subclass hook _set_joint_targets (target, max force), the subclass hook
get_relative_position, p.stepSimulation, and
p.resetBasePositionAndOrientation. -/
structure GripperImpl (σ : Type) where
  setJointTargets : ℚ → ℚ → σ → σ
  getRelativePosition : σ → ℚ
  stepSimulation : σ → σ
  resetBasePositionAndOrientation : List ℚ → σ → σ

/-- The instance attributes of a Gripper object: the commanded
target_relative_position (the only attribute the methods reassign),
the simulate_real_time flag set at construction, and the simulation
state reachable through the stored gripper_id. -/
structure GripperState (σ : Type) where
  targetRelativePosition : ℚ
  simulateRealTime : Bool
  sim : σ

/-- Names bound at module level of robotiq2F85.py by its import
statements (lines 1 to 9 of the source).  Note that `time` is not among
them: `import time` only occurs inside the `if name == main` block. -/
def moduleLevelImportedNames : List String :=
  ["close", "logging", "math", "List", "p", "pybullet_data",
   "get_asset_root_folder", "HideOutput"]

/-- Whether the name `time` used by `time.sleep(1.0 / 240)` inside
Gripper.movej resolves when the module is imported (module-level
lookup). -/
def timeResolvesAtModuleLevel : Bool := moduleLevelImportedNames.contains "time"

/-- A Python callable signature restricted to positional parameters:
how many are required and how many can be bound at most (parameters
with defaults are optional). -/
structure PySignature where
  requiredPositional : Nat
  maxPositional : Nat
  deriving DecidableEq

/-- Whether a call with `argCount` positional arguments binds against
the signature without a TypeError. -/
def acceptsPositionalCall (sig : PySignature) (argCount : Nat) : Bool :=
  decide (sig.requiredPositional ≤ argCount) && decide (argCount ≤ sig.maxPositional)

/-- Gripper.init signature beyond self: gripper_id (required) and
simulate_realtime (defaulted). -/
def gripperInitSignature : PySignature := ⟨1, 2⟩

/-- Number of positional arguments WSG50.init passes to the base
constructor: gripper_id, open_position, closed_position. -/
def wsg50SuperInitArgCount : Nat := 3

/-- Python's built-in abs on exact rationals (kept as an executable
definition; it agrees with the lattice absolute value, see
pyAbs_eq_abs). -/
def pyAbs (q : ℚ) : ℚ := if q < 0 then -q else q

namespace Gripper

/-- Class attribute Gripper.open_relative_position. -/
def open_relative_position : ℚ := 0.0

/-- Class attribute Gripper.closed_relative_position. -/
def closed_relative_position : ℚ := 1.0

/-- The events of one non-converged iteration of the movej loop:
poll, set joint targets, step the simulation, and, when
simulate_real_time holds, sleep 1/240 seconds. -/
def iterationEvents (srt : Bool) : List Event :=
  [Event.pollEvent, Event.setTargetsEvent, Event.stepEvent] ++
    (if srt then [Event.sleepEvent (1 / 240)] else [])

/-- The `for _ in range(max_steps)` loop body of Gripper.movej.  `srt`
is the gripper's simulate_real_time flag, `tb` records whether the name
`time` is bound at the call site (when `srt` holds and `tb` fails, the
`time.sleep` statement raises a NameError after the simulation step).
Fuel `0` models the exhausted range: the debug log line runs and the
function returns Python's implicit None. -/
def movejLoop {σ : Type} (impl : GripperImpl σ) (srt tb : Bool)
    (target maxForce : ℚ) : Nat → σ → MovejOutcome × σ × List Event
  | 0, s => (MovejOutcome.success none, s, [Event.debugLogEvent])
  | n + 1, s =>
      if pyAbs (target - impl.getRelativePosition s) < 1e-2 then
        (MovejOutcome.success (some true), s, [Event.pollEvent])
      else
        let s1 := impl.stepSimulation (impl.setJointTargets target maxForce s)
        if srt && !tb then
          (MovejOutcome.exn (PyError.nameError "time"), s1,
            [Event.pollEvent, Event.setTargetsEvent, Event.stepEvent])
        else
          let r := movejLoop impl srt tb target maxForce n s1
          (r.1, r.2.1, iterationEvents srt ++ r.2.2)

/-- Gripper.movej: first assigns target_relative_position (the
bookkeeping line), then runs the polling loop. -/
def movej {σ : Type} (impl : GripperImpl σ) (tb : Bool) (st : GripperState σ)
    (target maxForce : ℚ) (maxSteps : Nat) :
    MovejOutcome × GripperState σ × List Event :=
  let r := movejLoop impl st.simulateRealTime tb target maxForce maxSteps st.sim
  (r.1, { st with targetRelativePosition := target, sim := r.2.1 }, r.2.2)

/-- Gripper.reset: reassigns target_relative_position to the open
position, commands the joint targets with max_force 100, and, when a
pose is given, resets the base pose. -/
def reset {σ : Type} (impl : GripperImpl σ) (st : GripperState σ)
    (pose : Option (List ℚ)) : GripperState σ :=
  let t := open_relative_position
  let s1 := impl.setJointTargets t 100 st.sim
  let s2 := match pose with
    | none => s1
    | some po => impl.resetBasePositionAndOrientation po s1
  { st with targetRelativePosition := t, sim := s2 }

/-- Gripper.init: stores the flag, initialises
target_relative_position to the open position and calls reset. -/
def init {σ : Type} (impl : GripperImpl σ) (simulate_realtime : Bool)
    (s : σ) : GripperState σ :=
  reset impl
    { targetRelativePosition := open_relative_position,
      simulateRealTime := simulate_realtime, sim := s } none

/-- Gripper.is_object_grasped: commanded minus measured relative
position exceeds 0.1 in absolute value. -/
def is_object_grasped {σ : Type} (impl : GripperImpl σ)
    (st : GripperState σ) : Bool :=
  decide (pyAbs (st.targetRelativePosition - impl.getRelativePosition st.sim) > 0.1)

/-- The simulation state after `n` non-converged loop iterations: each
iteration commands the joint targets and then steps the simulation. -/
def iterSim {σ : Type} (impl : GripperImpl σ) (target maxForce : ℚ) :
    Nat → σ → σ
  | 0, s => s
  | n + 1, s =>
      iterSim impl target maxForce n
        (impl.stepSimulation (impl.setJointTargets target maxForce s))

end Gripper

namespace Robotiq2F85

/-- Class attribute Robotiq2F85.open_position. -/
def open_position : ℝ := 0.000

/-- Class attribute Robotiq2F85.closed_position. -/
def closed_position : ℝ := 0.085

/-- The abs_position local of _relative_position_to_joint_angle. -/
def absPositionOf (relative_position : ℝ) : ℝ :=
  closed_position + (open_position - closed_position) * relative_position

/-- Robotiq2F85._relative_position_to_joint_angle. -/
noncomputable def relative_position_to_joint_angle (relative_position : ℝ) : ℝ :=
  0.715 - Real.arcsin ((absPositionOf relative_position - 0.010) / 0.1143)

/-- Robotiq2F85._joint_angle_to_relative_position, written with the
source's expression verbatim; as in Python, division binds tighter than
subtraction in the second line. -/
noncomputable def joint_angle_to_relative_position (angle : ℝ) : ℝ :=
  Real.sin (0.715 - angle) * 0.1143 + 0.01 -
    closed_position / (open_position - closed_position)

/-- One gear constraint as configured by _create_constraints: the
parent and child joint indices, the gear ratio passed to
changeConstraint (the negated stored multiplier), the max force, and
the erp value. -/
structure GearConstraint where
  parentJointId : Int
  childJointId : Int
  gearRatioValue : Int
  maxForce : Int
  erp : Int
  deriving DecidableEq

/-- The constraint_dict literal of _create_constraints, in insertion
order. -/
def constraint_dict : List (Int × List (Int × Int)) :=
  [(5, [(7, -1)]), (0, [(2, -1)])]

/-- The list of gear constraints _create_constraints creates, in the
order of the two nested loops. -/
def create_constraints : List GearConstraint :=
  (constraint_dict.map (fun pc =>
    pc.2.map (fun jm => (⟨pc.1, jm.1, -jm.2, 100, 1⟩ : GearConstraint)))).flatten

end Robotiq2F85

/-- A concrete engine over a one-point state whose measured relative
position is constantly 0. -/
def unitImplNear : GripperImpl Unit :=
  ⟨fun _ _ _ => (), fun _ => 0, fun s => s, fun _ s => s⟩

/-- A concrete engine over a one-point state whose measured relative
position is constantly 1. -/
def unitImplFar : GripperImpl Unit :=
  ⟨fun _ _ _ => (), fun _ => 1, fun s => s, fun _ s => s⟩

lemma pyAbs_eq_abs (q : ℚ) : pyAbs q = |q| := by
  by_cases h : q < 0
  · simp [pyAbs, h, abs_of_neg h]
  · simp [pyAbs, h, abs_of_nonneg (not_lt.mp h)]

lemma iterSim_zero {σ : Type} (impl : GripperImpl σ) (t mf : ℚ) (s : σ) :
    Gripper.iterSim impl t mf 0 s = s := rfl

lemma iterSim_succ {σ : Type} (impl : GripperImpl σ) (t mf : ℚ) (n : Nat) (s : σ) :
    Gripper.iterSim impl t mf (n + 1) s =
      Gripper.iterSim impl t mf n
        (impl.stepSimulation (impl.setJointTargets t mf s)) := rfl

lemma count_flatten_replicate (l : List Event) (e : Event) (k : Nat) :
    ((List.replicate k l).flatten).count e = k * l.count e := by
  induction k with
  | zero => simp
  | succ k ih =>
      simp [List.replicate_succ, ih]
      ring

lemma count_iterationEvents_poll (srt : Bool) :
    (Gripper.iterationEvents srt).count Event.pollEvent = 1 := by
  cases srt <;> decide

lemma count_iterationEvents_set (srt : Bool) :
    (Gripper.iterationEvents srt).count Event.setTargetsEvent = 1 := by
  cases srt <;> decide

lemma count_iterationEvents_step (srt : Bool) :
    (Gripper.iterationEvents srt).count Event.stepEvent = 1 := by
  cases srt <;> decide

lemma count_single_poll :
    ([Event.pollEvent] : List Event).count Event.pollEvent = 1 := by decide

lemma count_single_set :
    ([Event.pollEvent] : List Event).count Event.setTargetsEvent = 0 := by decide

lemma count_single_step :
    ([Event.pollEvent] : List Event).count Event.stepEvent = 0 := by decide

lemma count_single_debug :
    ([Event.debugLogEvent] : List Event).count Event.pollEvent = 0 := by decide

/-- If the current relative position first comes within 1e-2 of the
target after `k` full iterations and `k` is below the remaining fuel,
the loop stops there, returns True, leaves the simulation at the state
after those `k` iterations, and its trace is `k` full iterations
followed by one final poll. -/
lemma movejLoop_first_converge {σ : Type} (impl : GripperImpl σ)
    (srt tb : Bool) (t mf : ℚ) (htb : srt = true → tb = true) :
    ∀ (k fuel : Nat) (s : σ), k < fuel →
      pyAbs (t - impl.getRelativePosition (Gripper.iterSim impl t mf k s)) < 1e-2 →
      (∀ j, j < k →
        ¬ pyAbs (t - impl.getRelativePosition (Gripper.iterSim impl t mf j s)) < 1e-2) →
      Gripper.movejLoop impl srt tb t mf fuel s =
        (MovejOutcome.success (some true), Gripper.iterSim impl t mf k s,
          (List.replicate k (Gripper.iterationEvents srt)).flatten ++
            [Event.pollEvent]) := by
  intro k
  induction k with
  | zero =>
      intro fuel s hk hconv _
      obtain ⟨n, rfl⟩ : ∃ n, fuel = n + 1 := ⟨fuel - 1, by omega⟩
      have hc : pyAbs (t - impl.getRelativePosition s) < 1e-2 := hconv
      simp only [Gripper.movejLoop]
      rw [if_pos hc]
      simp [Gripper.iterSim]
  | succ k ih =>
      intro fuel s hk hconv hmin
      obtain ⟨n, rfl⟩ : ∃ n, fuel = n + 1 := ⟨fuel - 1, by omega⟩
      have h0 : ¬ pyAbs (t - impl.getRelativePosition s) < 1e-2 := hmin 0 (Nat.succ_pos k)
      have hstb : (srt && !tb) = false := by
        cases srt
        · rfl
        · simp [htb rfl]
      have hrec := ih n (impl.stepSimulation (impl.setJointTargets t mf s))
        (by omega) hconv (fun j hj => hmin (j + 1) (Nat.succ_lt_succ hj))
      simp only [Gripper.movejLoop]
      rw [if_neg h0]
      simp [hstb, hrec, Gripper.iterSim, List.replicate_succ]

/-- If no state within the fuel budget is within 1e-2 of the target,
the loop exhausts its fuel, returns None, leaves the simulation at the
state after `fuel` iterations, and ends its trace with the debug log
event. -/
lemma movejLoop_timeout {σ : Type} (impl : GripperImpl σ)
    (srt tb : Bool) (t mf : ℚ) (htb : srt = true → tb = true) :
    ∀ (fuel : Nat) (s : σ),
      (∀ j, j < fuel →
        ¬ pyAbs (t - impl.getRelativePosition (Gripper.iterSim impl t mf j s)) < 1e-2) →
      Gripper.movejLoop impl srt tb t mf fuel s =
        (MovejOutcome.success none, Gripper.iterSim impl t mf fuel s,
          (List.replicate fuel (Gripper.iterationEvents srt)).flatten ++
            [Event.debugLogEvent]) := by
  intro fuel
  induction fuel with
  | zero =>
      intro s _
      simp [Gripper.movejLoop, Gripper.iterSim]
  | succ n ih =>
      intro s hdiv
      have h0 : ¬ pyAbs (t - impl.getRelativePosition s) < 1e-2 := hdiv 0 (Nat.succ_pos n)
      have hstb : (srt && !tb) = false := by
        cases srt
        · rfl
        · simp [htb rfl]
      have hrec := ih (impl.stepSimulation (impl.setJointTargets t mf s))
        (fun j hj => hdiv (j + 1) (Nat.succ_lt_succ hj))
      simp only [Gripper.movejLoop]
      rw [if_neg h0]
      simp [hstb, hrec, Gripper.iterSim, List.replicate_succ]

/-- Whenever the loop returns True, the simulation state it returns is
within 1e-2 of the target. -/
lemma movejLoop_true_converged {σ : Type} (impl : GripperImpl σ)
    (srt tb : Bool) (t mf : ℚ) :
    ∀ (fuel : Nat) (s : σ),
      (Gripper.movejLoop impl srt tb t mf fuel s).1 =
        MovejOutcome.success (some true) →
      pyAbs (t - impl.getRelativePosition
          (Gripper.movejLoop impl srt tb t mf fuel s).2.1) < 1e-2 := by
  intro fuel
  induction fuel with
  | zero =>
      intro s h
      simp [Gripper.movejLoop] at h
  | succ n ih =>
      intro s h
      by_cases hc : pyAbs (t - impl.getRelativePosition s) < 1e-2
      · simp only [Gripper.movejLoop]
        rw [if_pos hc]
        exact hc
      · cases hstb : (srt && !tb) with
        | true =>
            simp only [Gripper.movejLoop] at h
            rw [if_neg hc] at h
            simp [hstb] at h
        | false =>
            have h' : (Gripper.movejLoop impl srt tb t mf n
                (impl.stepSimulation (impl.setJointTargets t mf s))).1 =
                MovejOutcome.success (some true) := by
              simp only [Gripper.movejLoop] at h
              rw [if_neg hc] at h
              simpa [hstb] using h
            have hr := ih (impl.stepSimulation (impl.setJointTargets t mf s)) h'
            simp only [Gripper.movejLoop]
            rw [if_neg hc]
            simpa [hstb] using hr

/-- A loop with fuel left whose first poll is already within tolerance
returns True at once with the single poll as its whole trace. -/
lemma movejLoop_immediate {σ : Type} (impl : GripperImpl σ) (srt tb : Bool)
    (t mf : ℚ) (n : Nat) (s : σ)
    (h : pyAbs (t - impl.getRelativePosition s) < 1e-2) :
    Gripper.movejLoop impl srt tb t mf (n + 1) s =
      (MovejOutcome.success (some true), s, [Event.pollEvent]) := by
  simp only [Gripper.movejLoop]
  rw [if_pos h]

/-- A realtime loop whose name `time` is unbound raises NameError on
its first non-converged iteration. -/
lemma movejLoop_nameError {σ : Type} (impl : GripperImpl σ) (t mf : ℚ)
    (n : Nat) (s : σ)
    (h0 : ¬ pyAbs (t - impl.getRelativePosition s) < 1e-2) :
    (Gripper.movejLoop impl true false t mf (n + 1) s).1 =
      MovejOutcome.exn (PyError.nameError "time") := by
  simp only [Gripper.movejLoop]
  rw [if_neg h0]
  rfl

/-- C1: for every target and every max_steps > 0, when the measured
relative position first comes within 1e-2 of the target after `k`
loop iterations with `k < maxSteps`, movej returns True immediately at
that poll; it polls exactly `k + 1` times (hence at most max_steps
times), and each of the `k` earlier iterations commands the joint
motor targets exactly once and steps the simulation exactly once
before the next poll, as the event trace records. -/
theorem movej_polls_until_first_convergence {σ : Type} (impl : GripperImpl σ)
    (tb : Bool) (st : GripperState σ) (target maxForce : ℚ)
    (maxSteps k : Nat)
    (htb : st.simulateRealTime = true → tb = true)
    (hk : k < maxSteps)
    (hconv : pyAbs (target - impl.getRelativePosition
        (Gripper.iterSim impl target maxForce k st.sim)) < 1e-2)
    (hmin : ∀ j, j < k →
      ¬ pyAbs (target - impl.getRelativePosition
          (Gripper.iterSim impl target maxForce j st.sim)) < 1e-2) :
    (Gripper.movej impl tb st target maxForce maxSteps).1 =
      MovejOutcome.success (some true) ∧
    (Gripper.movej impl tb st target maxForce maxSteps).2.1.sim =
      Gripper.iterSim impl target maxForce k st.sim ∧
    (Gripper.movej impl tb st target maxForce maxSteps).2.2 =
      (List.replicate k (Gripper.iterationEvents st.simulateRealTime)).flatten ++
        [Event.pollEvent] ∧
    (Gripper.movej impl tb st target maxForce maxSteps).2.2.count
      Event.pollEvent = k + 1 ∧
    (Gripper.movej impl tb st target maxForce maxSteps).2.2.count
      Event.pollEvent ≤ maxSteps ∧
    (Gripper.movej impl tb st target maxForce maxSteps).2.2.count
      Event.setTargetsEvent = k ∧
    (Gripper.movej impl tb st target maxForce maxSteps).2.2.count
      Event.stepEvent = k := by
  have hrec := movejLoop_first_converge impl st.simulateRealTime tb target
    maxForce htb k maxSteps st.sim hk hconv hmin
  have htr : (Gripper.movej impl tb st target maxForce maxSteps).2.2 =
      (List.replicate k (Gripper.iterationEvents st.simulateRealTime)).flatten ++
        [Event.pollEvent] := by
    simp [Gripper.movej, hrec]
  have hpoll : (Gripper.movej impl tb st target maxForce maxSteps).2.2.count
      Event.pollEvent = k + 1 := by
    rw [htr, List.count_append, count_flatten_replicate,
      count_iterationEvents_poll, count_single_poll, Nat.mul_one]
  refine ⟨?_, ?_, htr, hpoll, ?_, ?_, ?_⟩
  · simp [Gripper.movej, hrec]
  · simp [Gripper.movej, hrec]
  · rw [hpoll]
    omega
  · rw [htr, List.count_append, count_flatten_replicate,
      count_iterationEvents_set, count_single_set, Nat.mul_one, Nat.add_zero]
  · rw [htr, List.count_append, count_flatten_replicate,
      count_iterationEvents_step, count_single_step, Nat.mul_one, Nat.add_zero]

/-- Witness for C1 at a concrete engine that is already converged at
the first poll. -/
theorem movej_polls_until_first_convergence_witness :
    (0 : Nat) < 2 ∧
    pyAbs ((0 : ℚ) - unitImplNear.getRelativePosition
        (Gripper.iterSim unitImplNear 0 100 0 ())) < 1e-2 ∧
    ((Gripper.movej unitImplNear true (⟨0, true, ()⟩ : GripperState Unit)
        0 100 2).1 = MovejOutcome.success (some true) ∧
      (Gripper.movej unitImplNear true (⟨0, true, ()⟩ : GripperState Unit)
        0 100 2).2.1.sim = Gripper.iterSim unitImplNear 0 100 0 () ∧
      (Gripper.movej unitImplNear true (⟨0, true, ()⟩ : GripperState Unit)
        0 100 2).2.2 =
        (List.replicate 0 (Gripper.iterationEvents true)).flatten ++
          [Event.pollEvent] ∧
      (Gripper.movej unitImplNear true (⟨0, true, ()⟩ : GripperState Unit)
        0 100 2).2.2.count Event.pollEvent = 0 + 1 ∧
      (Gripper.movej unitImplNear true (⟨0, true, ()⟩ : GripperState Unit)
        0 100 2).2.2.count Event.pollEvent ≤ 2 ∧
      (Gripper.movej unitImplNear true (⟨0, true, ()⟩ : GripperState Unit)
        0 100 2).2.2.count Event.setTargetsEvent = 0 ∧
      (Gripper.movej unitImplNear true (⟨0, true, ()⟩ : GripperState Unit)
        0 100 2).2.2.count Event.stepEvent = 0) :=
  ⟨by decide, by norm_num [pyAbs, unitImplNear, Gripper.iterSim],
    movej_polls_until_first_convergence unitImplNear true ⟨0, true, ()⟩ 0 100 2 0
      (fun _ => rfl) (by decide)
      (by norm_num [pyAbs, unitImplNear, Gripper.iterSim])
      (fun j hj => absurd hj (Nat.not_lt_zero j))⟩

/-- C3: when no iteration within the max_steps budget brings the
measured relative position within 1e-2 of the target, movej returns
None (no exception, no distinguishable failure value), its trace ends
with the debug log event, and the stored target_relative_position
keeps the requested value. -/
theorem movej_timeout_logs_and_returns_none {σ : Type} (impl : GripperImpl σ)
    (tb : Bool) (st : GripperState σ) (target maxForce : ℚ) (maxSteps : Nat)
    (htb : st.simulateRealTime = true → tb = true)
    (hdiv : ∀ j, j < maxSteps →
      ¬ pyAbs (target - impl.getRelativePosition
          (Gripper.iterSim impl target maxForce j st.sim)) < 1e-2) :
    (Gripper.movej impl tb st target maxForce maxSteps).1 =
      MovejOutcome.success none ∧
    Event.debugLogEvent ∈ (Gripper.movej impl tb st target maxForce maxSteps).2.2 ∧
    (Gripper.movej impl tb st target maxForce maxSteps).2.2.count
      Event.pollEvent = maxSteps ∧
    (Gripper.movej impl tb st target maxForce maxSteps).2.1.targetRelativePosition =
      target := by
  have hrec := movejLoop_timeout impl st.simulateRealTime tb target maxForce htb
    maxSteps st.sim hdiv
  have htr : (Gripper.movej impl tb st target maxForce maxSteps).2.2 =
      (List.replicate maxSteps
          (Gripper.iterationEvents st.simulateRealTime)).flatten ++
        [Event.debugLogEvent] := by
    simp [Gripper.movej, hrec]
  refine ⟨?_, ?_, ?_, rfl⟩
  · simp [Gripper.movej, hrec]
  · simp [Gripper.movej, hrec]
  · rw [htr, List.count_append, count_flatten_replicate,
      count_iterationEvents_poll, count_single_debug, Nat.mul_one, Nat.add_zero]

/-- Witness for C3 at a concrete engine whose measured position stays
at distance 1 from the target. -/
theorem movej_timeout_logs_and_returns_none_witness :
    (Gripper.movej unitImplFar false (⟨0, false, ()⟩ : GripperState Unit)
        0 100 3).1 = MovejOutcome.success none ∧
    Event.debugLogEvent ∈ (Gripper.movej unitImplFar false
        (⟨0, false, ()⟩ : GripperState Unit) 0 100 3).2.2 ∧
    (Gripper.movej unitImplFar false (⟨0, false, ()⟩ : GripperState Unit)
        0 100 3).2.2.count Event.pollEvent = 3 ∧
    (Gripper.movej unitImplFar false (⟨0, false, ()⟩ : GripperState Unit)
        0 100 3).2.1.targetRelativePosition = 0 :=
  movej_timeout_logs_and_returns_none unitImplFar false ⟨0, false, ()⟩ 0 100 3
    (fun h => h)
    (by
      intro j hj
      simp only [unitImplFar]
      norm_num [pyAbs])

/-- C7: the commanded target_relative_position always holds the last
commanded value: it is 0 (the open relative position) after the
constructor and after reset, and after movej of target `x` it is `x`,
whatever the outcome of the move was. -/
theorem target_relative_position_is_last_commanded {σ : Type}
    (impl : GripperImpl σ) (tb simulate_realtime : Bool) (s : σ)
    (st : GripperState σ) (pose : Option (List ℚ)) (x mf : ℚ) (ms : Nat) :
    Gripper.open_relative_position = 0 ∧
    (Gripper.init impl simulate_realtime s).targetRelativePosition =
      Gripper.open_relative_position ∧
    (Gripper.reset impl st pose).targetRelativePosition =
      Gripper.open_relative_position ∧
    (Gripper.movej impl tb st x mf ms).2.1.targetRelativePosition = x := by
  refine ⟨?_, rfl, rfl, rfl⟩
  norm_num [Gripper.open_relative_position]

/-- C9: a movej call whose target is already within 1e-2 of the
measured relative position returns True at its first poll: the call
commands no joint motor target, performs no simulation step and no
sleep (its whole trace is the single poll), and leaves the simulation
state unchanged. -/
theorem movej_noop_when_already_converged {σ : Type} (impl : GripperImpl σ)
    (tb : Bool) (st : GripperState σ) (x mf : ℚ) (ms : Nat)
    (hms : 0 < ms) (h : pyAbs (x - impl.getRelativePosition st.sim) < 1e-2) :
    Gripper.movej impl tb st x mf ms =
      (MovejOutcome.success (some true),
        { st with targetRelativePosition := x }, [Event.pollEvent]) ∧
    (Gripper.movej impl tb st x mf ms).2.1.sim = st.sim := by
  obtain ⟨n, rfl⟩ : ∃ n, ms = n + 1 := ⟨ms - 1, by omega⟩
  have hmain : Gripper.movej impl tb st x mf (n + 1) =
      (MovejOutcome.success (some true),
        { st with targetRelativePosition := x }, [Event.pollEvent]) := by
    simp [Gripper.movej, Gripper.movejLoop, h]
  exact ⟨hmain, by rw [hmain]⟩

/-- Witness for C9: already-converged movej on a concrete engine. -/
theorem movej_noop_when_already_converged_witness :
    (0 : Nat) < 2 ∧
    pyAbs ((0 : ℚ) - unitImplNear.getRelativePosition ()) < 1e-2 ∧
    (Gripper.movej unitImplNear true (⟨0, true, ()⟩ : GripperState Unit)
        0 100 2 =
      (MovejOutcome.success (some true), (⟨0, true, ()⟩ : GripperState Unit),
        [Event.pollEvent]) ∧
      (Gripper.movej unitImplNear true (⟨0, true, ()⟩ : GripperState Unit)
        0 100 2).2.1.sim = ()) :=
  ⟨by decide, by norm_num [pyAbs, unitImplNear],
    movej_noop_when_already_converged unitImplNear true ⟨0, true, ()⟩ 0 100 2
      (by decide) (by norm_num [pyAbs, unitImplNear])⟩

/-- C10: is_object_grasped holds exactly when the absolute difference
between the commanded and the measured relative position exceeds 0.1;
and right after any movej call that returned True it is false, since
such a call ends within 1e-2 of its commanded target. -/
theorem is_object_grasped_definition_and_after_converged_movej {σ : Type}
    (impl : GripperImpl σ) (tb : Bool) (st stQ : GripperState σ)
    (x mf : ℚ) (ms : Nat)
    (h : (Gripper.movej impl tb st x mf ms).1 = MovejOutcome.success (some true)) :
    (Gripper.is_object_grasped impl stQ = true ↔
      0.1 < pyAbs (stQ.targetRelativePosition - impl.getRelativePosition stQ.sim)) ∧
    Gripper.is_object_grasped impl
      (Gripper.movej impl tb st x mf ms).2.1 = false := by
  constructor
  · simp [Gripper.is_object_grasped]
  · have hc := movejLoop_true_converged impl st.simulateRealTime tb x mf ms st.sim h
    have hng : ¬ ((0.1 : ℚ) < pyAbs (x - impl.getRelativePosition
        (Gripper.movejLoop impl st.simulateRealTime tb x mf ms st.sim).2.1)) := by
      intro hlt
      have hb : (1e-2 : ℚ) ≤ 0.1 := by norm_num
      linarith
    simp [Gripper.movej, Gripper.is_object_grasped, hng]

/-- Witness for C10 at a concrete engine: a movej that converges at its
first poll, then an already-open state and a disagreeing state. -/
theorem is_object_grasped_definition_and_after_converged_movej_witness :
    (Gripper.is_object_grasped unitImplNear
        (⟨1, true, ()⟩ : GripperState Unit) = true ↔
      0.1 < pyAbs ((⟨1, true, ()⟩ : GripperState Unit).targetRelativePosition -
        unitImplNear.getRelativePosition
          (⟨1, true, ()⟩ : GripperState Unit).sim)) ∧
    Gripper.is_object_grasped unitImplNear
      (Gripper.movej unitImplNear true (⟨0, true, ()⟩ : GripperState Unit)
        0 100 2).2.1 = false :=
  is_object_grasped_definition_and_after_converged_movej unitImplNear true
    ⟨0, true, ()⟩ ⟨1, true, ()⟩ 0 100 2
    (by
      have h1 : pyAbs ((0 : ℚ) - unitImplNear.getRelativePosition ()) < 1e-2 := by
        norm_num [pyAbs, unitImplNear]
      have h2 := movejLoop_immediate unitImplNear true true 0 100 1 () h1
      norm_num at h2
      simp [Gripper.movej, h2])

/-- C2: the forward conversion returns
0.715 - arcsin((abs_position - 0.010) / 0.1143) with abs_position the
affine interpolation closed + (open - closed) * relative, where the
class constants are open_position = 0.0 and closed_position = 0.085;
in particular relative 0.0 yields abs_position 0.085 and relative 1.0
yields abs_position 0.0. -/
theorem relative_position_to_joint_angle_formula (r : ℝ) :
    Robotiq2F85.relative_position_to_joint_angle r =
      0.715 - Real.arcsin ((Robotiq2F85.closed_position +
        (Robotiq2F85.open_position - Robotiq2F85.closed_position) * r -
          0.010) / 0.1143) ∧
    Robotiq2F85.open_position = 0.0 ∧
    Robotiq2F85.closed_position = 0.085 ∧
    Robotiq2F85.absPositionOf 0 = 0.085 ∧
    Robotiq2F85.absPositionOf 1 = 0 := by
  refine ⟨rfl, by norm_num [Robotiq2F85.open_position], rfl, ?_, ?_⟩ <;>
    norm_num [Robotiq2F85.absPositionOf, Robotiq2F85.open_position,
      Robotiq2F85.closed_position]

/-- C4 fails on the code: the round trip of the two conversion
functions at commanded relative position 0 evaluates to 1.085, not 0,
because the backward conversion subtracts
closed_position / (open_position - closed_position) (which is -1) from
abs_position instead of dividing the difference. -/
theorem joint_angle_roundtrip_at_open_command :
    Robotiq2F85.joint_angle_to_relative_position
      (Robotiq2F85.relative_position_to_joint_angle 0) = 1.085 ∧
    Robotiq2F85.joint_angle_to_relative_position
      (Robotiq2F85.relative_position_to_joint_angle 0) ≠ 0 := by
  have habs : Robotiq2F85.absPositionOf 0 = 0.085 := by
    norm_num [Robotiq2F85.absPositionOf, Robotiq2F85.open_position,
      Robotiq2F85.closed_position]
  have key : Robotiq2F85.joint_angle_to_relative_position
      (Robotiq2F85.relative_position_to_joint_angle 0) = 1.085 := by
    unfold Robotiq2F85.joint_angle_to_relative_position
      Robotiq2F85.relative_position_to_joint_angle
    rw [habs]
    have harg : (0.715 : ℝ) - (0.715 - Real.arcsin ((0.085 - 0.010) / 0.1143)) =
        Real.arcsin ((0.085 - 0.010) / 0.1143) := by ring
    rw [harg, Real.sin_arcsin (by norm_num) (by norm_num)]
    norm_num [Robotiq2F85.open_position, Robotiq2F85.closed_position]
  refine ⟨key, ?_⟩
  rw [key]
  norm_num

/-- C5 fails on the code: the name `time` used by the sleep statement
in movej is not bound by any module-level import of robotiq2F85.py, so
on an imported module a realtime gripper's first non-converged movej
iteration raises NameError at the sleep statement instead of sleeping. -/
theorem time_unbound_movej_realtime_raises :
    timeResolvesAtModuleLevel = false ∧
    (Gripper.movej unitImplFar timeResolvesAtModuleLevel
        (⟨0, true, ()⟩ : GripperState Unit) 0 100 200).1 =
      MovejOutcome.exn (PyError.nameError "time") := by
  constructor
  · decide
  · have htb : timeResolvesAtModuleLevel = false := by decide
    have h0 : ¬ pyAbs ((0 : ℚ) - unitImplFar.getRelativePosition ()) < 1e-2 := by
      simp only [unitImplFar]
      norm_num [pyAbs]
    have h2 := movejLoop_nameError unitImplFar 0 100 199 () h0
    rw [show (199 : Nat) + 1 = 200 from rfl] at h2
    rw [htb]
    simpa [Gripper.movej] using h2

/-- C6 fails on the code: the WSG50 constructor passes three positional
arguments to the base Gripper constructor, whose signature binds at
most two (gripper_id plus the defaulted simulate_realtime), so the call
raises TypeError and no WSG50 instance can be constructed. -/
theorem wsg50_super_init_arity_mismatch :
    acceptsPositionalCall gripperInitSignature wsg50SuperInitArgCount = false ∧
    wsg50SuperInitArgCount = 3 ∧
    gripperInitSignature.maxPositional = 2 ∧
    gripperInitSignature.requiredPositional = 1 := by
  decide

/-- C8: _create_constraints creates exactly the two gear constraints
linking parent joint 5 to child joint 7 and parent joint 0 to child
joint 2, each configured with gear ratio 1 (the negated stored
multiplier -1), max force 100 and erp 1, and no others. -/
theorem create_constraints_exactly_two_gear_constraints :
    Robotiq2F85.create_constraints =
      [(⟨5, 7, 1, 100, 1⟩ : Robotiq2F85.GearConstraint),
        (⟨0, 2, 1, 100, 1⟩ : Robotiq2F85.GearConstraint)] ∧
    Robotiq2F85.create_constraints.length = 2 := by
  decide

end PybulletSim
